import Mathlib

/-!
Shallow embedding of `SJR.h` (oficsu/SJR), a single-header JSON-like
document model: a node tree (`class SJR`), a recursive-descent parser over a
`char*` cursor, and a recursive serializer.

Modelling conventions:
- the `char*` cursor over the null-terminated buffer becomes a `List Char`;
  dereferencing at the end of the list yields the terminator `'\x00'`
  (`peekc`), exactly as `*file` reads the `std::string`'s terminator;
- member functions that mutate `this` become functions `SJR → ... → SJR`
  (state threaded explicitly); the `bool` success result of the parse
  functions is returned alongside the mutated node and cursor;
- C++ loops that need not terminate (`parseNumber`'s exponent scan, string
  scans stuck at the terminator) get a `fuel : Nat` argument; `none` means
  the fuel ran out, i.e. the source loop diverges (or walks off the buffer);
- `int` accumulators are modelled as unbounded `Int` (the claims under
  study never reach overflow), `float`/`double` as `ℚ`; every float value
  reached in the concrete claims below is exactly representable in binary32
  and every operation on it is exact, so the rational model agrees with the
  IEEE evaluation there;
- `std::stoi`'s `invalid_argument` (thrown by `getValue<bool|int>` on
  non-numeric text) is modelled as `Except.error SJRError.valueTypeError`,
  the spec's name for that failure; `load`'s `runtime_error` on a failed
  top-level parse is `SJRError.formatError`. File I/O is out of scope per
  the spec: `load` takes the byte content, `save`'s sink is the returned
  `String`;
- `writeObject`'s `static int tabsCount` is threaded as an explicit
  parameter: every `writeObject` increments and then decrements it, so a
  single `save` always starts from the value 0 and restores it.
-/

namespace SJRModel

/-- The `SJR::Type` enumeration. -/
inductive JType where
  | BOOL
  | INT
  | FLOAT
  | STRING
  | ARRAY
  | OBJECT
deriving DecidableEq, Repr

/-- One `SJR` node: `type`, `value`, `mapJson` (`std::map<std::string, SJR>`,
kept as a key-sorted association list) and `vectorJson` (`std::vector<SJR>`).
All four fields are always present, as in the C++ object. -/
inductive SJR where
  | node (jtype : JType) (value : String) (mapJson : List (String × SJR))
      (vectorJson : List SJR)

/-- Projection of the `type` field (named `jtype`: `type` clashes with Lean). -/
def SJR.jtype : SJR → JType
  | .node t _ _ _ => t

/-- Projection of the `value` field. -/
def SJR.value : SJR → String
  | .node _ v _ _ => v

/-- Projection of the `mapJson` field. -/
def SJR.mapJson : SJR → List (String × SJR)
  | .node _ _ m _ => m

/-- Projection of the `vectorJson` field. -/
def SJR.vectorJson : SJR → List SJR
  | .node _ _ _ a => a

/-- Assignment `type = t`. -/
def SJR.withType : SJR → JType → SJR
  | .node _ v m a, t => .node t v m a

/-- Assignment `value = s`. -/
def SJR.withValue : SJR → String → SJR
  | .node t _ m a, v => .node t v m a

/-- Assignment to `mapJson`. -/
def SJR.withMap : SJR → List (String × SJR) → SJR
  | .node t v _ a, m => .node t v m a

/-- Assignment to `vectorJson`. -/
def SJR.withVector : SJR → List SJR → SJR
  | .node t v m _, a => .node t v m a

/-- A default-constructed `SJR`: `type = Type::OBJECT`, empty `value`,
empty `mapJson`, empty `vectorJson` (the in-class initializers). -/
def defaultSJR : SJR := .node .OBJECT "" [] []

/-- The error taxonomy of the spec (§7): `IOError` is out of scope here
(file handles are abstracted away); `FormatError` is `load`'s
`runtime_error` on parse failure; `ValueTypeError` is the `std::stoi` /
`std::stof` `invalid_argument` escaping `getValue`. -/
inductive SJRError where
  | ioError
  | formatError
  | valueTypeError
deriving DecidableEq, Repr

/-- `SJR::getType`. -/
def getType (n : SJR) : JType := n.jtype

/-- `SJR::getChildCount`: `mapJson.size()`, regardless of `type`. -/
def getChildCount (n : SJR) : Nat := n.mapJson.length

/-- `SJR::getArraySize`: `vectorJson.size()`, regardless of `type`. -/
def getArraySize (n : SJR) : Nat := n.vectorJson.length

/-- `SJR::setValue<bool>`: `type = Type::BOOL; value = std::to_string(newValue)`.
`std::to_string` has no `bool` overload, so the argument promotes to `int`
and the stored text is `"1"` or `"0"`. -/
def setValueBool (n : SJR) (b : Bool) : SJR :=
  (n.withType .BOOL).withValue (if b then "1" else "0")

/-- `SJR::setValue<int>`: `type = Type::INT; value = std::to_string(newValue)`. -/
def setValueInt (n : SJR) (i : Int) : SJR :=
  (n.withType .INT).withValue (toString i)

/-- `SJR::setValue<std::string>`: `type = Type::STRING; value = newValue`. -/
def setValueString (n : SJR) (s : String) : SJR :=
  (n.withType .STRING).withValue s

/-- C `isspace` on the default locale, restricted to ASCII: space, `\t`,
`\n`, `\v`, `\f`, `\r`. -/
def cIsSpace (c : Char) : Bool :=
  c = ' ' || c = '\t' || c = '\n' || c = '\x0b' || c = '\x0c' || c = '\r'

/-- C `isdigit`. -/
def cIsDigit (c : Char) : Bool := '0' ≤ c && c ≤ '9'

/-- Dereference of the cursor, `*file`; at the end of the buffer this reads
the `std::string` null terminator. -/
def peekc : List Char → Char
  | [] => '\x00'
  | c :: _ => c

/-- Cursor increment `++file`. Incrementing at the end of the list is kept
at the end (the C++ would step past the terminator, which no claim path
reaches with a defined result). -/
def adv : List Char → List Char
  | [] => []
  | _ :: r => r

/-- Model of `std::stoi`: skip whitespace, read an optional single sign,
then a nonempty digit run; `none` is the `invalid_argument` throw.
(`out_of_range` cannot occur: the accumulator is unbounded.) -/
def stoiOpt (s : String) : Option Int :=
  let cs := s.toList.dropWhile (fun c => cIsSpace c)
  let p := match cs with
    | '-' :: r => (true, r)
    | '+' :: r => (false, r)
    | _ => (false, cs)
  let digs := p.2.takeWhile (fun c => cIsDigit c)
  if digs.isEmpty then none
  else
    some ((if p.1 then -1 else 1) *
      (digs.foldl (fun a c => a * 10 + ((c.toNat : Int) - 48)) 0))

/-- `SJR::getValue<int>`: `return std::stoi(value);`. -/
def getValueInt (n : SJR) : Except SJRError Int :=
  match stoiOpt n.value with
  | some k => .ok k
  | none => .error .valueTypeError

/-- `SJR::getValue<bool>`: also `return std::stoi(value);`, the `int`
result converting to `bool` (nonzero becomes `true`) at the return. -/
def getValueBool (n : SJR) : Except SJRError Bool :=
  match stoiOpt n.value with
  | some k => .ok (decide (k ≠ 0))
  | none => .error .valueTypeError

/-- `std::map::find` over the sorted association list (`mapJson.find`). -/
def mapFind (k : String) : List (String × SJR) → Option SJR
  | [] => none
  | (k', v) :: r => if k' = k then some v else mapFind k r

/-- Insert-or-assign into the key-sorted association list: the effect of
`mapJson[key] = v` (and of `mapJson[key]` default-inserting) on
`std::map`'s ordered contents. -/
def mapInsert (k : String) (v : SJR) : List (String × SJR) → List (String × SJR)
  | [] => [(k, v)]
  | (k', v') :: rest =>
    if k < k' then (k, v) :: (k', v') :: rest
    else if k' < k then (k', v') :: mapInsert k v rest
    else (k, v) :: rest

/-- `SJR::operator[](std::string_view)`: look the key up; if absent,
`mapJson[nodeName]` default-inserts. Returns the updated receiver and the
referenced child. -/
def keyAccess (n : SJR) (k : String) : SJR × SJR :=
  match mapFind k n.mapJson with
  | some v => (n, v)
  | none => (n.withMap (mapInsert k defaultSJR n.mapJson), defaultSJR)

/-- `std::vector::resize(m)` with value-initialized (default `SJR`) fill. -/
def listResize (l : List SJR) (m : Nat) : List SJR :=
  l.take m ++ List.replicate (m - l.length) defaultSJR

/-- `SJR::operator[](size_t)`: if `type != ARRAY`, `vectorJson.resize(index)`
and `type = ARRAY`; then if `index >= vectorJson.size()`,
`vectorJson.resize(index + 1)`; return `vectorJson.at(index)`. The pair is
(updated receiver, referenced element). -/
def indexAccess (n : SJR) (index : Nat) : SJR × SJR :=
  let n1 := if n.jtype ≠ .ARRAY then
      (n.withVector (listResize n.vectorJson index)).withType .ARRAY
    else n
  let n2 := if n1.vectorJson.length ≤ index then
      n1.withVector (listResize n1.vectorJson (index + 1))
    else n1
  (n2, n2.vectorJson.getD index defaultSJR)

/-- `SJR::skipWhiteSpace`: `while (isspace(*file)) ++file;`. Terminates
structurally (the terminator is not a space). -/
def skipWhiteSpace : List Char → List Char
  | [] => []
  | c :: r => if cIsSpace c then skipWhiteSpace r else c :: r

/-- The first `len` cursor bytes as `memcmp` reads them: past the end of
the list it reads the null terminator. -/
def padTake (s : List Char) (len : Nat) : List Char :=
  s.take len ++ List.replicate (len - s.length) '\x00'

/-- `memcmp(file, lit, lit.length) == 0`. -/
def memcmpEq (s : List Char) (lit : List Char) : Bool :=
  padTake s lit.length = lit

/-- `SJR::parseBool`: prefix-compare against `"true"` and `"false"`; on a
match store `std::to_string(resultTrue)` (`"1"` or `"0"`), advance by 4 or
5, set `type = BOOL`. -/
def parseBoolF (n : SJR) (s : List Char) : Bool × SJR × List Char :=
  let resultTrue := memcmpEq s ['t', 'r', 'u', 'e']
  let resultFalse := memcmpEq s ['f', 'a', 'l', 's', 'e']
  if resultTrue || resultFalse then
    (true,
      ((n.withValue (if resultTrue then "1" else "0")).withType .BOOL),
      s.drop (if resultTrue then 4 else 5))
  else (false, n, s)

/-- Integer-digit loop of `parseNumber`:
`while (isdigit(*file)) { valueInt *= 10; valueInt += *file - '0'; ++file; }`. -/
def digitsLoop (v : Int) : List Char → Int × List Char
  | [] => (v, [])
  | c :: r =>
    if cIsDigit c then digitsLoop (v * 10 + ((c.toNat : Int) - 48)) r
    else (v, c :: r)

/-- Fraction-digit loop of `parseNumber`: per digit,
`valueFloat = (valueFloat * 10^shift + digit) / 10^shift`, `shift`
incrementing from 1. Exact rationals stand in for `float`. -/
def fracLoop (vF : ℚ) (shift : Nat) : List Char → ℚ × List Char
  | [] => (vF, [])
  | c :: r =>
    if cIsDigit c then
      fracLoop ((vF * 10 ^ shift + ((c.toNat : ℚ) - 48)) / 10 ^ shift) (shift + 1) r
    else (vF, c :: r)

/-- Exponent-digit loop of `parseNumber`:
`while (isdigit(*file)) { valueInt *= 10; valueInt += *file - '0'; }` —
the body never advances the cursor, so the loop only exits when the
character under the cursor is already not a digit. `none` = out of fuel. -/
def expLoop : Nat → Int → List Char → Option (Int × List Char)
  | 0, _, _ => none
  | fuel + 1, v, s =>
    if cIsDigit (peekc s) then
      expLoop fuel (v * 10 + (((peekc s).toNat : Int) - 48)) s
    else some (v, s)

/-- Zero-padded 6-digit decimal string. -/
def pad6 (n : Nat) : String :=
  let s := toString n
  String.mk (List.replicate (6 - s.length) '0') ++ s

/-- `std::to_string` on a `double`: `sprintf "%f"`, fixed notation with six
fractional digits. -/
def fmtFixed6 (q : ℚ) : String :=
  let sgn := if q < 0 then "-" else ""
  let m : Nat := (round (|q| * 1000000) : ℤ).toNat
  sgn ++ toString (m / 1000000) ++ "." ++ pad6 (m % 1000000)

/-- `SJR::parseNumber`. Sign, integer digits, then one of: `.` and the
fractional loop (value stored via `std::to_string(double)`); `e`/`E` and
the non-advancing exponent loop (divergent whenever a digit follows, hence
the fuel); otherwise `INT` with `std::to_string(valueInt * sign)`. -/
def parseNumberF (fuel : Nat) (n : SJR) (s : List Char) :
    Option (Bool × SJR × List Char) :=
  let signNegative := peekc s = '-'
  let signPositive := peekc s = '+'
  let sign := signNegative || signPositive
  if sign || cIsDigit (peekc s) then
    let s1 := if sign then adv s else s
    let p := digitsLoop 0 s1
    if peekc p.2 = '.' then
      let f := fracLoop (p.1 : ℚ) 1 (adv p.2)
      some (true,
        ((n.withType .FLOAT).withValue
          (fmtFixed6 (f.1 * (if signNegative then -1 else 1)))),
        f.2)
    else if peekc p.2 = 'e' || peekc p.2 = 'E' then
      match expLoop fuel 0 (adv p.2) with
      | none => none
      | some e =>
        some (true,
          ((n.withType .FLOAT).withValue
            (fmtFixed6 (((p.1 : ℚ) * 10 ^ e.1.toNat) *
              (if signNegative then -1 else 1)))),
          e.2)
    else
      some (true,
        ((n.withType .INT).withValue
          (toString (p.1 * (if signNegative then -1 else 1)))),
        p.2)
  else some (false, n, s)

/-- Body loop of `SJR::parseString`: `while (*file != '"')` — skip
whitespace (dropping it from the value, per the spec's documented quirk);
an immediate quote after whitespace returns without consuming it;
otherwise append `*file` and advance. Stuck at the terminator the C++
walks off the buffer; here the fuel runs out. -/
def parseStringLoop (fuel : Nat) (n : SJR) (s : List Char) :
    Option (Bool × SJR × List Char) :=
  match fuel with
  | 0 => none
  | fuel + 1 =>
    if peekc s ≠ '"' then
      let s1 := skipWhiteSpace s
      if peekc s1 = '"' then some (true, n, s1)
      else parseStringLoop fuel (n.withValue (n.value.push (peekc s1))) (adv s1)
    else some (true, n, adv s)

/-- `SJR::parseString`: a leading quote sets `type = STRING` and runs the
body loop; anything else fails without moving. -/
def parseStringF (fuel : Nat) (n : SJR) (s : List Char) :
    Option (Bool × SJR × List Char) :=
  if peekc s = '"' then parseStringLoop fuel (n.withType .STRING) (adv s)
  else some (false, n, s)

/-- Key-scanning loop of `SJR::parseObject` (same shape as the string body
loop, accumulating `nodeName`); returns with the cursor on the closing
quote, which the caller then consumes. -/
def keyLoop (fuel : Nat) (acc : String) (s : List Char) :
    Option (String × List Char) :=
  match fuel with
  | 0 => none
  | fuel + 1 =>
    if peekc s ≠ '"' then
      let s1 := skipWhiteSpace s
      if peekc s1 = '"' then some (acc, s1)
      else keyLoop fuel (acc.push (peekc s1)) (adv s1)
    else some (acc, s)

mutual

/-- `SJR::parseArray`: a leading `[` sets `type = ARRAY` and enters the
element loop; anything else fails without moving. -/
def parseArrayF : Nat → SJR → List Char → Option (Bool × SJR × List Char)
  | 0, _, _ => none
  | fuel + 1, n, s =>
    if peekc s = '[' then arrayLoopF fuel (n.withType .ARRAY) (adv s)
    else some (false, n, s)

/-- Element loop of `SJR::parseArray` (`while (*file != ']')`): skip
whitespace, allow an immediate `]`, recursively parse a fresh node
(failure aborts the array with `false`, keeping elements pushed so far),
push it, then expect `]` (done, re-setting `type = ARRAY`) or `,`. -/
def arrayLoopF : Nat → SJR → List Char → Option (Bool × SJR × List Char)
  | 0, _, _ => none
  | fuel + 1, n, s =>
    if peekc s ≠ ']' then
      let s1 := skipWhiteSpace s
      if peekc s1 = ']' then some (true, n, adv s1)
      else
        match parseF fuel defaultSJR s1 with
        | none => none
        | some (ok, newSJR, s2) =>
          if !ok then some (false, n, s2)
          else
            let n1 := n.withVector (n.vectorJson ++ [newSJR])
            let s3 := skipWhiteSpace s2
            if peekc s3 = ']' then some (true, n1.withType .ARRAY, adv s3)
            else if peekc s3 ≠ ',' then some (false, n1, s3)
            else arrayLoopF fuel n1 (adv s3)
    else some (true, n, adv s)

/-- `SJR::parseObject`: a leading `{` sets `type = OBJECT` and enters the
member loop; anything else fails without moving. -/
def parseObjectF : Nat → SJR → List Char → Option (Bool × SJR × List Char)
  | 0, _, _ => none
  | fuel + 1, n, s =>
    if peekc s = '{' then objectLoopF fuel (n.withType .OBJECT) (adv s)
    else some (false, n, s)

/-- Member loop of `SJR::parseObject` (`while (*file != '}')`). The
`Sum.inl` results are the function's early `return true` exits inside the
`if (*file == '"')` block: after a key missing its closing quote, after a
missing `:`, and — the quirk central to the partial-success behavior —
after a nested `parse` failure (`if (!newNode.parse(file)) return true;`),
which abandons the pair but reports success. `Sum.inr` falls through to
the separator handling. -/
def objectLoopF : Nat → SJR → List Char → Option (Bool × SJR × List Char)
  | 0, _, _ => none
  | fuel + 1, n, s =>
    if peekc s ≠ '}' then
      let s1 := skipWhiteSpace s
      if peekc s1 = '}' then some (true, n, adv s1)
      else
        let step :=
          if peekc s1 = '"' then
            match keyLoop fuel "" (adv s1) with
            | none => none
            | some (nodeName, s2) =>
              if peekc s2 ≠ '"' then some (Sum.inl (true, n, s2))
              else
                let s3 := skipWhiteSpace (adv s2)
                if peekc s3 ≠ ':' then some (Sum.inl (true, n, s3))
                else
                  let s4 := skipWhiteSpace (adv s3)
                  match parseF fuel defaultSJR s4 with
                  | none => none
                  | some (ok, newNode, s5) =>
                    if !ok then some (Sum.inl (true, n, s5))
                    else some (Sum.inr
                      ((n.withType .OBJECT).withMap
                        (mapInsert nodeName newNode n.mapJson), s5))
          else some (Sum.inr (n, s1))
        match step with
        | none => none
        | some (Sum.inl r) => some r
        | some (Sum.inr q) =>
          let s7 := skipWhiteSpace q.2
          if peekc s7 = '}' then some (true, q.1, adv s7)
          else if peekc s7 ≠ ',' then some (false, q.1, s7)
          else objectLoopF fuel q.1 (adv s7)
    else some (true, n, adv s)

/-- `SJR::parse`: skip whitespace, then try `parseString`, `parseBool`,
`parseNumber`, `parseArray`, `parseObject` in that order on the same node
and cursor, committing to the first that reports success. -/
def parseF : Nat → SJR → List Char → Option (Bool × SJR × List Char)
  | 0, _, _ => none
  | fuel + 1, n, s =>
    let s0 := skipWhiteSpace s
    match parseStringF fuel n s0 with
    | none => none
    | some (ok1, n1, s1) =>
      if ok1 then some (true, n1, s1)
      else
        match parseBoolF n1 s1 with
        | (ok2, n2, s2) =>
          if ok2 then some (true, n2, s2)
          else
            match parseNumberF fuel n2 s2 with
            | none => none
            | some (ok3, n3, s3) =>
              if ok3 then some (true, n3, s3)
              else
                match parseArrayF fuel n3 s3 with
                | none => none
                | some (ok4, n4, s4) =>
                  if ok4 then some (true, n4, s4)
                  else parseObjectF fuel n4 s4

end

/-- `SJR::load` with the file content already read into memory (file-open
errors are out of scope per the spec): run `parse` from offset 0 on a
default-constructed node; a `false` result is the
`throw std::runtime_error("File doesn't correspong to json format file.")`,
i.e. the spec's FormatError. Whatever the cursor left unconsumed is never
inspected. `none` = the parser's divergence fuel ran out. -/
def loadModel (fuel : Nat) (content : String) : Option (Except SJRError SJR) :=
  match parseF fuel defaultSJR content.toList with
  | none => none
  | some (ok, n, _) => if ok then some (.ok n) else some (.error .formatError)

/-- Model of `std::stof` on the texts this program stores (fixed-notation
decimals as produced by `std::to_string`): optional whitespace, optional
sign, digits with an optional fractional part. `none` is the
`invalid_argument` throw. Exact rationals stand in for `float`; every
value reached below is exactly representable in binary32. -/
def stofQ (s : String) : Option ℚ :=
  let cs := s.toList.dropWhile (fun c => cIsSpace c)
  let p := match cs with
    | '-' :: r => (true, r)
    | '+' :: r => (false, r)
    | _ => (false, cs)
  let intDigs := p.2.takeWhile (fun c => cIsDigit c)
  let rest := p.2.drop intDigs.length
  let fracDigs := match rest with
    | '.' :: r => r.takeWhile (fun c => cIsDigit c)
    | _ => []
  if intDigs.isEmpty && fracDigs.isEmpty then none
  else
    let ip : ℚ := (intDigs.foldl (fun a c => a * 10 + (c.toNat - 48)) 0 : Nat)
    let fp : ℚ :=
      ((fracDigs.foldl (fun a c => a * 10 + (c.toNat - 48)) 0 : Nat) : ℚ) /
        10 ^ fracDigs.length
    some ((if p.1 then -1 else 1) * (ip + fp))

/-- Trailing `'0'` characters removed. -/
def stripZeros (s : String) : String :=
  String.mk (s.toList.reverse.dropWhile (fun c => c = '0')).reverse

/-- Decimal exponent of a positive rational: the `e` with
`10 ^ e ≤ a < 10 ^ (e + 1)`. -/
def decExp (a : ℚ) : Int :=
  if 1 ≤ a then (Nat.log 10 (⌊a⌋).toNat : Int)
  else -(Nat.clog 10 (⌈a⁻¹⌉).toNat : Int)

/-- Default `std::ostream` formatting of a floating value (`%g` with
precision 6): round to six significant digits, use fixed notation when the
decimal exponent lies in `[-4, 6)` and scientific notation otherwise, and
strip trailing zeros of the fractional part. -/
def fmtG6 (q : ℚ) : String :=
  if q = 0 then "0"
  else
    let sgn := if q < 0 then "-" else ""
    let a := |q|
    let e0 := decExp a
    let m0 := (round (a * (10 : ℚ) ^ ((5 : Int) - e0))).toNat
    let m := if m0 = 1000000 then 100000 else m0
    let e := if m0 = 1000000 then e0 + 1 else e0
    let ds := toString m
    if e < -4 ∨ (6 : Int) ≤ e then
      let lead := ds.take 1
      let frac := stripZeros (ds.drop 1)
      let mant := if frac = "" then lead else lead ++ "." ++ frac
      let esign := if e < 0 then "-" else "+"
      let eabs := e.natAbs
      let estr := if eabs < 10 then "0" ++ toString eabs else toString eabs
      sgn ++ mant ++ "e" ++ esign ++ estr
    else if 0 ≤ e then
      let ip := ds.take (e.toNat + 1)
      let fp := stripZeros (ds.drop (e.toNat + 1))
      sgn ++ (if fp = "" then ip else ip ++ "." ++ fp)
    else
      let zeros := String.mk (List.replicate (e.natAbs - 1) '0')
      sgn ++ "0." ++ stripZeros (zeros ++ ds)

/-- `count` tab characters, `SJR::writeTabs`. -/
def tabsStr (count : Nat) : String := String.mk (List.replicate count '\t')

mutual

/-- `SJR::write`: dispatch on `type`. Scalar cases re-parse `value`
(`writeBool`: `boolalpha << bool(stoi(value))`; `writeInt`:
`<< stoi(value)`; `writeFloat`: `<< stof(value)`; a `stoi`/`stof` throw is
`none`); `writeString` wraps in quotes with no escaping. `tabs` threads
`writeObject`'s `static int tabsCount` (balanced, see the header note). -/
def writeF : Nat → Nat → SJR → Option String
  | 0, _, _ => none
  | fuel + 1, tabs, n =>
    match n.jtype with
    | .BOOL => (stoiOpt n.value).map (fun k => if k ≠ 0 then "true" else "false")
    | .INT => (stoiOpt n.value).map (fun k => toString k)
    | .FLOAT => (stofQ n.value).map fmtG6
    | .STRING => some ("\"" ++ n.value ++ "\"")
    | .ARRAY => (writeArrayF fuel tabs n.vectorJson).map
        (fun body => "[" ++ body ++ "]")
    | .OBJECT => (writePairsF fuel (tabs + 1) n.mapJson).map
        (fun body =>
          (if n.value ≠ "" then "\"" ++ n.value ++ "\": " else "")
          ++ "\n" ++ tabsStr tabs ++ "\x7b" ++ "\n" ++ tabsStr (tabs + 1)
          ++ body
          ++ "\n" ++ tabsStr tabs ++ "\x7d")

/-- Element run of `SJR::writeArray`: recursive `write` per element, with
`", "` after every element but the last. -/
def writeArrayF : Nat → Nat → List SJR → Option String
  | 0, _, _ => none
  | _ + 1, _, [] => some ""
  | fuel + 1, tabs, [x] => writeF fuel tabs x
  | fuel + 1, tabs, x :: y :: r =>
    match writeF fuel tabs x, writeArrayF fuel tabs (y :: r) with
    | some a, some b => some (a ++ ", " ++ b)
    | _, _ => none

/-- Pair run of `SJR::writeObject`: `"key": ` then the recursive `write`,
with `", "`, a newline and the indentation after every pair but the
last. -/
def writePairsF : Nat → Nat → List (String × SJR) → Option String
  | 0, _, _ => none
  | _ + 1, _, [] => some ""
  | fuel + 1, tabs, [kv] =>
    (writeF fuel tabs kv.2).map (fun a => "\"" ++ kv.1 ++ "\": " ++ a)
  | fuel + 1, tabs, kv :: p :: r =>
    match writeF fuel tabs kv.2, writePairsF fuel tabs (p :: r) with
    | some a, some b =>
        some ("\"" ++ kv.1 ++ "\": " ++ a ++ ", " ++ "\n" ++ tabsStr tabs ++ b)
    | _, _ => none

end

/-- `SJR::save` with the sink abstracted to the produced text (opening the
file and the `bool` result for an unopenable sink are out of scope per the
spec): serialize from `tabsCount = 0`. -/
def saveModel (fuel : Nat) (n : SJR) : Option String := writeF fuel 0 n

/-- Key-sortedness of an object's member list: the invariant `std::map`
maintains for `mapJson`, lexicographic on the keys. -/
def SortedKeys (l : List (String × SJR)) : Prop :=
  l.Chain' (fun p q => p.1 < q.1)

/-- The tree that parsing `{"a": 1, "b": 2.5, "c": true}` builds: an
`OBJECT` whose members store the canonical texts `"1"` (`INT`),
`"2.500000"` (`FLOAT`, via `std::to_string(2.5)`) and `"1"` (`BOOL`). -/
def docC4 : SJR :=
  .node .OBJECT ""
    [("a", .node .INT "1" [] []),
      ("b", .node .FLOAT "2.500000" [] []),
      ("c", .node .BOOL "1" [] [])] []

@[simp] theorem jtype_node (t v m a) : (SJR.node t v m a).jtype = t := rfl

@[simp] theorem value_node (t v m a) : (SJR.node t v m a).value = v := rfl

@[simp] theorem mapJson_node (t v m a) : (SJR.node t v m a).mapJson = m := rfl

@[simp] theorem vectorJson_node (t v m a) : (SJR.node t v m a).vectorJson = a := rfl

theorem mapInsert_head (k : String) (v : SJR) :
    ∀ l : List (String × SJR),
      (mapInsert k v l).head? = some (k, v) ∨ (mapInsert k v l).head? = l.head? := by
  intro l
  cases l with
  | nil => left; rfl
  | cons hd tl =>
    by_cases h1 : k < hd.1
    · left; simp [mapInsert, h1]
    · by_cases h2 : hd.1 < k
      · right; simp [mapInsert, h1, h2]
      · left; simp [mapInsert, h1, h2]

theorem mapInsert_keeps_sorted (k : String) (v : SJR) :
    ∀ l : List (String × SJR), SortedKeys l → SortedKeys (mapInsert k v l) := by
  intro l
  induction l with
  | nil => intro _; simp [mapInsert, SortedKeys]
  | cons hd tl ih =>
    obtain ⟨k1, v1⟩ := hd
    intro hs
    rw [SortedKeys, List.chain'_cons'] at hs
    by_cases h1 : k < k1
    · rw [SortedKeys]
      simp only [mapInsert]
      rw [if_pos h1, List.chain'_cons]
      refine ⟨h1, ?_⟩
      rw [List.chain'_cons']
      exact hs
    · by_cases h2 : k1 < k
      · rw [SortedKeys]
        simp only [mapInsert]
        rw [if_neg h1, if_pos h2, List.chain'_cons']
        refine ⟨?_, ih hs.2⟩
        intro y hy
        rcases mapInsert_head k v tl with hh | hh
        · rw [hh] at hy
          simp at hy
          rw [← hy]
          exact h2
        · rw [hh] at hy
          exact hs.1 y hy
      · have hk : k = k1 := le_antisymm (not_lt.mp h2) (not_lt.mp h1)
        rw [SortedKeys]
        simp only [mapInsert]
        rw [if_neg h1, if_neg h2, List.chain'_cons']
        refine ⟨?_, hs.2⟩
        intro y hy
        rw [hk]
        exact hs.1 y hy

theorem expLoop_digit_none :
    ∀ (fuel : Nat) (v : Int) (s : List Char),
      cIsDigit (peekc s) = true → expLoop fuel v s = none := by
  intro fuel
  induction fuel with
  | zero => intro v s _; rfl
  | succ f ih =>
    intro v s h
    rw [expLoop, if_pos h]
    exact ih _ s h

theorem digitsLoop_runs :
    ∀ (xs : List Char) (v : Int) (r : List Char),
      (∀ c ∈ xs, cIsDigit c = true) → cIsDigit (peekc r) = false →
      ∃ w, digitsLoop v (xs ++ r) = (w, r) := by
  intro xs
  induction xs with
  | nil =>
    intro v r _ hr
    cases r with
    | nil => exact ⟨v, rfl⟩
    | cons c r' =>
      refine ⟨v, ?_⟩
      simp only [peekc] at hr
      simp [digitsLoop, hr]
  | cons x xs ih =>
    intro v r hxs hr
    have hx : cIsDigit x = true := hxs x (by simp)
    rw [List.cons_append]
    simp only [digitsLoop, hx, if_true]
    exact ih _ r (fun c hc => hxs c (by simp [hc])) hr

theorem digit_not_dash {c : Char} (h : cIsDigit c = true) : (c = '-') = False := by
  refine eq_false ?_
  intro hc
  rw [hc] at h
  exact absurd h (by decide)

theorem digit_not_plus {c : Char} (h : cIsDigit c = true) : (c = '+') = False := by
  refine eq_false ?_
  intro hc
  rw [hc] at h
  exact absurd h (by decide)

/-- Claim C1 (code bug): the claim demands that a nested parse failure
inside an object abort the whole parse with FormatError — the spec calls
the partial-success returns a bug to fix — but on `{"a": }` the code's
`parseObject` hits `if (!newNode.parse(file)) return true;`, drops the
pair, and reports success: `load` returns a document (the kept, now empty,
enclosing object — exactly a default node) instead of failing. -/
theorem load_accepts_malformed_nested :
    loadModel 64 "\x7b\"a\": \x7d" = some (.ok defaultSJR) ∧
    getChildCount defaultSJR = 0 := ⟨rfl, rfl⟩

/-- Claim C2: on a freshly default-constructed node (kind `OBJECT`, no
children), `operator[](5)` turns the node into an `ARRAY` of exactly six
default `OBJECT` elements (resize to 5, then to 5 + 1) and the reference
returned is the element at index 5. -/
theorem indexAccess_fresh_autovivifies :
    indexAccess defaultSJR 5
      = (.node .ARRAY "" [] (List.replicate 6 defaultSJR), defaultSJR) ∧
    getArraySize (indexAccess defaultSJR 5).1 = 6 ∧
    (indexAccess defaultSJR 5).2
      = (indexAccess defaultSJR 5).1.vectorJson.getD 5 defaultSJR :=
  ⟨rfl, rfl, rfl⟩

/-- Claim C3, counterexample: `operator[](size_t)` does NOT discard prior
object content. A node holding one child under key `"k"` still has
`getChildCount() == 1` (not `0`) after the index access `[0]` coerces it
to `ARRAY` — `vectorJson.resize` and the `type` assignment never touch
`mapJson`. -/
theorem indexAccess_discards_cx :
    getType (keyAccess defaultSJR "k").1 = .OBJECT ∧
    getChildCount (keyAccess defaultSJR "k").1 = 1 ∧
    getChildCount ((indexAccess (keyAccess defaultSJR "k").1 0).1) = 1 ∧
    getChildCount ((indexAccess (keyAccess defaultSJR "k").1 0).1) ≠ 0 :=
  ⟨rfl, rfl, rfl, by decide⟩

/-- Claim C3, amended: `operator[](size_t)` on any node coerces the kind
to `ARRAY` but leaves the prior `mapJson` and scalar `value` in place, so
`getChildCount()` afterwards returns the prior child count, not `0`. -/
theorem indexAccess_keeps_other_content (n : SJR) (i : Nat) :
    ((indexAccess n i).1).jtype = .ARRAY ∧
    ((indexAccess n i).1).mapJson = n.mapJson ∧
    ((indexAccess n i).1).value = n.value ∧
    getChildCount (indexAccess n i).1 = getChildCount n := by
  cases n with
  | node t v m a =>
    simp only [indexAccess, getChildCount, SJR.withType, SJR.withVector,
      jtype_node, mapJson_node, value_node, vectorJson_node]
    split_ifs with h1 h2 h3 <;>
      simp_all [SJR.withType, SJR.withVector]

/-- Claim C4, counterexample: `{"a": 1, "b": 2.5, "c": true}` does parse
to an `OBJECT` with three children, but serializing it does not reproduce
the spec's text: `writeObject` emits a newline before the opening brace
and writes `", "` (comma and space) before each newline separator. -/
theorem roundtrip_example_text_cx :
    loadModel 64 "\x7b\"a\": 1, \"b\": 2.5, \"c\": true\x7d" = some (.ok docC4) ∧
    writeF 64 0 docC4 = some "\n\x7b\n\t\"a\": 1, \n\t\"b\": 2.5, \n\t\"c\": true\n\x7d" ∧
    "\n\x7b\n\t\"a\": 1, \n\t\"b\": 2.5, \n\t\"c\": true\n\x7d"
      ≠ "\x7b\n\t\"a\": 1,\n\t\"b\": 2.5,\n\t\"c\": true\n\x7d" :=
  ⟨by with_unfolding_all rfl, by with_unfolding_all rfl, by decide⟩

/-- Claim C4, amended: `{"a": 1, "b": 2.5, "c": true}` parses to an
`OBJECT` with `getChildCount() == 3`, and serializing it yields the
pretty-printed text with a leading newline before the opening brace and
pairs separated by `", "` then a newline — otherwise exactly the spec's
layout (one tab of indent per pair, closing brace on its own line). -/
theorem roundtrip_example_text_amended :
    loadModel 64 "\x7b\"a\": 1, \"b\": 2.5, \"c\": true\x7d" = some (.ok docC4) ∧
    getChildCount docC4 = 3 ∧
    writeF 64 0 docC4 = some "\n\x7b\n\t\"a\": 1, \n\t\"b\": 2.5, \n\t\"c\": true\n\x7d" :=
  ⟨by with_unfolding_all rfl, rfl, by with_unfolding_all rfl⟩

/-- Claim C5, counterexample: `setValue<bool>(true)` stores the text
`"1"`, not `"true"`: `std::to_string` has no `bool` overload, so the
argument promotes to `int`. -/
theorem setValue_bool_text_cx :
    (setValueBool defaultSJR true).value = "1" ∧
    (setValueBool defaultSJR true).value ≠ "true" :=
  ⟨rfl, by decide⟩

/-- Claim C5, amended: for every receiver and boolean, `setValue<bool>`
sets the kind to `BOOL` and stores `"1"` for `true` and `"0"` for `false`
(the decimal text of the bool promoted to `int`), with no side effect on
`mapJson` or `vectorJson`. -/
theorem setValue_bool_stores_digit (n : SJR) (b : Bool) :
    (setValueBool n b).jtype = .BOOL ∧
    (setValueBool n b).value = (if b then "1" else "0") ∧
    (setValueBool n b).mapJson = n.mapJson ∧
    (setValueBool n b).vectorJson = n.vectorJson := by
  cases n
  exact ⟨rfl, rfl, rfl, rfl⟩

/-- Claim C6: after `setValue<bool>(true)` on any node, the stored
canonical text is `"1"`, and both `getValue<int>()` and `getValue<bool>()`
re-parse it with `std::stoi`: the int read yields `1` and the bool read
the equal value `true` (the `int` 1 converted to `bool` at the return). -/
theorem getValue_bool_int_consistent (n : SJR) :
    (setValueBool n true).value = "1" ∧
    getValueInt (setValueBool n true) = .ok 1 ∧
    getValueBool (setValueBool n true) = .ok true := by
  cases n
  exact ⟨rfl, rfl, rfl⟩

/-- Claim C7: whenever the stored text is not integer-parseable
(`std::stoi` has no digits to read), `getValue<int>()` fails with the
catchable ValueTypeError (the `invalid_argument` thrown by `stoi`) — in
particular after `setValue<std::string>("hi")`. -/
theorem getValue_int_type_error :
    (∀ n : SJR, stoiOpt n.value = none →
        getValueInt n = .error .valueTypeError) ∧
    getValueInt (setValueString defaultSJR "hi") = .error .valueTypeError := by
  refine ⟨?_, rfl⟩
  intro n h
  simp [getValueInt, h]

theorem getValue_int_type_error_witness :
    stoiOpt (setValueString defaultSJR "hi").value = none ∧
    getValueInt (setValueString defaultSJR "hi") = .error .valueTypeError :=
  ⟨rfl, getValue_int_type_error.1 (setValueString defaultSJR "hi") rfl⟩

/-- Claim C8: the exponent-digit loop of `parseNumber` never advances the
cursor, so it returns only when the scanned character is already not a
digit (first conjunct: with a digit under the cursor it exhausts any
amount of fuel), and consequently `parseNumber` diverges on every number
made of a digit run followed by an `e`/`E` marker and at least one
exponent digit (second conjunct). -/
theorem parseNumber_exponent_diverges :
    (∀ (fuel : Nat) (v : Int) (s : List Char),
        cIsDigit (peekc s) = true → expLoop fuel v s = none) ∧
    (∀ (fuel : Nat) (n : SJR) (x : Char) (xs : List Char) (mark d : Char)
        (rest : List Char),
        cIsDigit x = true → (∀ c ∈ xs, cIsDigit c = true) →
        (mark = 'e' ∨ mark = 'E') → cIsDigit d = true →
        parseNumberF fuel n ((x :: xs) ++ mark :: d :: rest) = none) := by
  refine ⟨expLoop_digit_none, ?_⟩
  intro fuel n x xs mark d rest hx hxs hmark hd
  have hmd : cIsDigit mark = false := by
    rcases hmark with h | h <;> rw [h] <;> rfl
  obtain ⟨w, hw⟩ := digitsLoop_runs (x :: xs) 0 (mark :: d :: rest)
    (by
      intro c hc
      rcases List.mem_cons.mp hc with h | h
      · rw [h]; exact hx
      · exact hxs c h)
    (by simp [peekc, hmd])
  rw [List.cons_append] at hw
  have hexp : expLoop fuel 0 (d :: rest) = none :=
    expLoop_digit_none fuel 0 (d :: rest) (by simp [peekc, hd])
  have hb1 : decide (x = '-') = false :=
    decide_eq_false (by intro hc; rw [hc] at hx; exact absurd hx (by decide))
  have hb2 : decide (x = '+') = false :=
    decide_eq_false (by intro hc; rw [hc] at hx; exact absurd hx (by decide))
  simp only [parseNumberF, List.cons_append, peekc, hb1, hb2, hx, Bool.false_or,
    Bool.or_self, Bool.or_true, Bool.false_eq_true, if_true, if_false]
  rw [hw]
  have hdot : ¬(mark = '.') := by
    rcases hmark with h | h <;> rw [h] <;> decide
  rw [if_neg hdot]
  have hee : (decide (mark = 'e') || decide (mark = 'E')) = true := by
    rcases hmark with h | h <;> rw [h] <;> rfl
  simp only [hee, if_true, adv]
  rw [hexp]

theorem parseNumber_exponent_diverges_witness :
    cIsDigit '1' = true ∧ ('e' = 'e' ∨ 'e' = 'E') ∧ cIsDigit '5' = true ∧
    parseNumberF 5 defaultSJR ['1', 'e', '5'] = none :=
  ⟨by decide, Or.inl rfl, by decide,
    parseNumber_exponent_diverges.2 5 defaultSJR '1' [] 'e' '5' []
      (by decide) (by intro c hc; cases hc) (Or.inl rfl) (by decide)⟩

/-- Claim C9: `mapJson` is a `std::map`, so every child-inserting
operation (the parser's `mapJson[key] = node` and `operator[]`'s
default-insert, both modelled by `mapInsert`) preserves lexicographic key
order (first conjunct); concretely, inserting `"zebra"` then `"apple"`
leaves the members ordered `apple, zebra`, and serialization emits the
`"apple"` pair first (remaining conjuncts). -/
theorem object_keys_sorted :
    (∀ (k : String) (v : SJR) (l : List (String × SJR)),
        SortedKeys l → SortedKeys (mapInsert k v l)) ∧
    ((keyAccess ((keyAccess defaultSJR "zebra").1) "apple").1).mapJson.map
        Prod.fst = ["apple", "zebra"] ∧
    writeF 64 0 ((keyAccess ((keyAccess defaultSJR "zebra").1) "apple").1)
      = some "\n\x7b\n\t\"apple\": \n\t\x7b\n\t\t\n\t\x7d, \n\t\"zebra\": \n\t\x7b\n\t\t\n\t\x7d\n\x7d" :=
  ⟨mapInsert_keeps_sorted, by with_unfolding_all rfl, by with_unfolding_all rfl⟩

theorem object_keys_sorted_witness :
    SortedKeys [("apple", defaultSJR)] ∧
    SortedKeys (mapInsert "zebra" defaultSJR [("apple", defaultSJR)]) :=
  ⟨List.chain'_singleton _,
    object_keys_sorted.1 "zebra" defaultSJR [("apple", defaultSJR)]
      (List.chain'_singleton _)⟩

/-- Claim C10: `load` runs `parse` once from offset 0 and never inspects
what the cursor left unconsumed: whenever `parse` succeeds on a prefix,
`load` succeeds with that document whatever bytes follow (first
conjunct); concretely `"true xyz"` parses as the boolean `true` leaving
`" xyz"` unconsumed, and `load` succeeds on it (remaining conjuncts). -/
theorem load_ignores_trailing :
    (∀ (fuel : Nat) (s : String) (n : SJR) (r : List Char),
        parseF fuel defaultSJR s.toList = some (true, n, r) →
        loadModel fuel s = some (.ok n)) ∧
    parseF 64 defaultSJR "true xyz".toList
      = some (true, .node .BOOL "1" [] [], " xyz".toList) ∧
    loadModel 64 "true xyz" = some (.ok (.node .BOOL "1" [] [])) := by
  refine ⟨?_, rfl, rfl⟩
  intro fuel s n r h
  have h2 : parseF fuel defaultSJR s.data = some (true, n, r) := h
  simp [loadModel, h2]

theorem load_ignores_trailing_witness :
    loadModel 64 "true xyz" = some (.ok (.node .BOOL "1" [] [])) :=
  load_ignores_trailing.1 64 "true xyz" (.node .BOOL "1" [] [])
    " xyz".toList rfl

end SJRModel
